import Mathlib

/-!
Verification development for the meta-kagent manifest validation and
diff-reconciliation core (internal/tools manifest tools and
internal/kubernetes/client.go).

Manifests are modelled as generic attribute trees (the Go code works on
`map[string]interface{}` obtained from YAML); maps are association lists.
Because Go maps are unordered (and `yaml.Marshal` sorts keys), structural
comparison of two trees (`cmp.Diff(x, y) == ""`) is modelled as equality of
key-sorted canonical forms.  The external resource store (the Kubernetes
dynamic client) is modelled as a finite map from (kind, namespace, name)
identities to manifests, plus a set of identities whose Get fails with a
non-not-found store error; Create/Update honour the dry-run flag by leaving
the store unchanged.
-/

/-- A YAML/JSON-style value: the generic attribute tree the Go tools
manipulate as `map[string]interface{}`. -/
inductive JValue where
  | str (s : String)
  | num (n : Int)
  | jbool (b : Bool)
  | null
  | obj (fields : List (String × JValue))
  | arr (items : List JValue)
deriving Repr

/-- A parsed manifest: the top-level `obj.Object` map. -/
abbrev Manifest := List (String × JValue)

/-- Look up a key in an object's field list (Go map indexing). -/
def lookupField : List (String × JValue) → String → Option JValue
  | [], _ => none
  | (k', v) :: rest, k => if k' = k then some v else lookupField rest k

/-- Set a key in an object's field list (Go map assignment). -/
def setField : List (String × JValue) → String → JValue → List (String × JValue)
  | [], k, v => [(k, v)]
  | (k', v') :: rest, k, v =>
      if k' = k then (k, v) :: rest else (k', v') :: setField rest k v

/-- Delete a top-level key (Go `delete(obj.Object, k)`). -/
def removeField (m : Manifest) (k : String) : Manifest :=
  m.filter (fun p => p.1 ≠ k)

/-- Walk a field path through nested objects, as
`unstructured.NestedFieldNoCopy`: an intermediate that is missing or not an
object stops the walk. -/
def nestedField : List (String × JValue) → List String → Option JValue
  | fs, [] => some (.obj fs)
  | fs, [k] => lookupField fs k
  | fs, k :: rest =>
      match lookupField fs k with
      | some (.obj fs') => nestedField fs' rest
      | _ => none

/-- Model of `unstructured.NestedString`: `none` when the path is missing or the
value is not a string (Go reports found=false / an error in those cases,
and every caller in this code treats them alike). -/
def nestedString (fs : List (String × JValue)) (path : List String) : Option String :=
  match nestedField fs path with
  | some (.str s) => some s
  | _ => none

/-- Model of `obj.GetAPIVersion()`: empty string when absent or not a string. -/
def getAPIVersion (m : Manifest) : String := (nestedString m ["apiVersion"]).getD ""

/-- Model of `obj.GetKind()`. -/
def getKind (m : Manifest) : String := (nestedString m ["kind"]).getD ""

/-- Model of `obj.GetName()` (reads `metadata.name`). -/
def getName (m : Manifest) : String := (nestedString m ["metadata", "name"]).getD ""

/-- Model of `obj.GetNamespace()` (reads `metadata.namespace`). -/
def getNamespace (m : Manifest) : String := (nestedString m ["metadata", "namespace"]).getD ""

/-- Model of `obj.GetResourceVersion()` (reads `metadata.resourceVersion`). -/
def getResourceVersion (m : Manifest) : String :=
  (nestedString m ["metadata", "resourceVersion"]).getD ""

/-- Model of `unstructured.SetNestedField(obj, v, "metadata", k)`: creates the
`metadata` map when absent; a no-op when `metadata` exists but is not a
map (Go returns an error there, which the accessors drop). -/
def setMetaField (m : Manifest) (k v : String) : Manifest :=
  match lookupField m "metadata" with
  | some (.obj fs) => setField m "metadata" (.obj (setField fs k (.str v)))
  | none => setField m "metadata" (.obj [(k, .str v)])
  | some _ => m

/-- Model of `obj.SetNamespace`. -/
def setNamespace (m : Manifest) (ns : String) : Manifest := setMetaField m "namespace" ns

/-- Model of `obj.SetResourceVersion`. -/
def setResourceVersion (m : Manifest) (rv : String) : Manifest :=
  setMetaField m "resourceVersion" rv

/-- Model of `unstructured.RemoveNestedField(obj, "metadata", k)`: a no-op when
`metadata` is absent or not a map. -/
def removeMetaField (m : Manifest) (k : String) : Manifest :=
  match lookupField m "metadata" with
  | some (.obj fs) => setField m "metadata" (.obj (removeField fs k))
  | _ => m

mutual

/-- Structural equality of attribute trees. -/
def JValue.beq : JValue → JValue → Bool
  | .str a, .str b => a == b
  | .num a, .num b => a == b
  | .jbool a, .jbool b => a == b
  | .null, .null => true
  | .obj fs, .obj gs => beqFields fs gs
  | .arr xs, .arr ys => beqArr xs ys
  | _, _ => false

/-- Structural equality of object field lists. -/
def beqFields : List (String × JValue) → List (String × JValue) → Bool
  | [], [] => true
  | (k, v) :: r, (k', v') :: r' => k == k' && JValue.beq v v' && beqFields r r'
  | _, _ => false

/-- Structural equality of value lists. -/
def beqArr : List JValue → List JValue → Bool
  | [], [] => true
  | x :: r, y :: r' => JValue.beq x y && beqArr r r'
  | _, _ => false

end

/-- Lexicographic comparison of character lists (a total order on keys,
used only to pick canonical representatives of unordered Go maps). -/
def charListLe : List Char → List Char → Bool
  | [], _ => true
  | _ :: _, [] => false
  | a :: as, b :: bs =>
      if a.toNat < b.toNat then true
      else if b.toNat < a.toNat then false
      else charListLe as bs

/-- Lexicographic string comparison via character lists. -/
def strLe (a b : String) : Bool := charListLe a.data b.data

/-- Insert a field into a key-sorted field list, keeping it sorted. -/
def insertSorted (k : String) (v : JValue) : List (String × JValue) → List (String × JValue)
  | [] => [(k, v)]
  | (k', v') :: rest =>
      if strLe k k' then (k, v) :: (k', v') :: rest else (k', v') :: insertSorted k v rest

mutual

/-- Canonical form of a tree: every object's fields sorted by key.  Two Go
maps are equal (in the `cmp.Diff(x, y) == ""` sense) exactly when their
canonical forms coincide; `yaml.Marshal` itself emits keys sorted. -/
def canon : JValue → JValue
  | .str s => .str s
  | .num n => .num n
  | .jbool b => .jbool b
  | .null => .null
  | .obj fs => .obj (canonFields fs)
  | .arr xs => .arr (canonArr xs)

/-- Canonicalise a field list: canonicalise values, sort by key. -/
def canonFields : List (String × JValue) → List (String × JValue)
  | [] => []
  | (k, v) :: rest => insertSorted k (canon v) (canonFields rest)

/-- Canonicalise a value list (lists keep their order). -/
def canonArr : List JValue → List JValue
  | [] => []
  | x :: xs => canon x :: canonArr xs

end

mutual

theorem JValue.beq_refl : (v : JValue) → JValue.beq v v = true
  | .str _ => by simp [JValue.beq]
  | .num _ => by simp [JValue.beq]
  | .jbool _ => by simp [JValue.beq]
  | .null => by simp [JValue.beq]
  | .obj fs => by simp [JValue.beq]; exact beqFields_refl fs
  | .arr xs => by simp [JValue.beq]; exact beqArr_refl xs

theorem beqFields_refl : (fs : List (String × JValue)) → beqFields fs fs = true
  | [] => rfl
  | (k, v) :: r => by
      simp [beqFields]
      exact ⟨JValue.beq_refl v, beqFields_refl r⟩

theorem beqArr_refl : (xs : List JValue) → beqArr xs xs = true
  | [] => rfl
  | x :: r => by
      simp [beqArr]
      exact ⟨JValue.beq_refl x, beqArr_refl r⟩

end

/-- A validation error or warning (tools.ValidationIssue). -/
structure ValidationIssue where
  severity : String
  field : String
  message : String
deriving DecidableEq, Repr

/-- The Kubernetes client wrapper: for this core only the configured
default namespace matters (kubernetes.Client). -/
structure Client where
  ns : String
deriving DecidableEq, Repr

/-- A resource identity: (kind, namespace, name). -/
abbrev Ident := String × String × String

/-- Outcome of a store Get: found, the not-found error, or some other
store error (transient, permission, ...). -/
inductive GetResult where
  | ok (m : Manifest)
  | notFound
  | err (msg : String)
deriving Repr

/-- The external resource store: resources keyed by identity, plus
identities whose Get fails with a non-not-found store error. -/
structure Store where
  data : List (Ident × Manifest)
  faults : List (Ident × String)

/-- Look up an identity in the store's resource list. -/
def lookupIdent : List (Ident × Manifest) → Ident → Option Manifest
  | [], _ => none
  | (i, m) :: rest, id => if i = id then some m else lookupIdent rest id

/-- Look up an identity among the injected Get faults. -/
def lookupFault : List (Ident × String) → Ident → Option String
  | [], _ => none
  | (i, e) :: rest, id => if i = id then some e else lookupFault rest id

/-- Model of `dynamicClient.Resource(gvr).Namespace(ns).Get(name)`. -/
def Store.get (s : Store) (id : Ident) : GetResult :=
  match lookupFault s.faults id with
  | some e => .err e
  | none =>
      match lookupIdent s.data id with
      | some m => .ok m
      | none => .notFound

/-- Model of `Create(obj, opts)`: persists unless the dry-run flag is set. -/
def Store.create (s : Store) (id : Ident) (m : Manifest) (dryRun : Bool) : Store :=
  if dryRun then s else { s with data := s.data ++ [(id, m)] }

/-- Model of `Update(obj, updateOpts)`: replaces the stored resource unless the
dry-run flag is set. -/
def Store.update (s : Store) (id : Ident) (m : Manifest) (dryRun : Bool) : Store :=
  if dryRun then s
  else { s with data := s.data.map (fun p => if p.1 = id then (id, m) else p) }

/-- Model of `gvrFromKind`: it succeeds exactly on the four kagent kinds. -/
def gvrKnown (kind : String) : Bool :=
  kind == "Agent" || kind == "ModelConfig" || kind == "MCPServer" || kind == "RemoteMCPServer"

/-- Model of `Client.GetModelConfig(name)`: a Get on the ModelConfig resource in the
client's configured namespace; validateAgent only uses whether it errors. -/
def getModelConfigOk (c : Client) (s : Store) (name : String) : Bool :=
  match s.get ("ModelConfig", c.ns, name) with
  | .ok _ => true
  | _ => false

/-- tools.validateAgent. -/
def validateAgent (c : Client) (s : Store) (obj : Manifest) (strict : Bool) :
    List ValidationIssue :=
  let specType := (nestedString obj ["spec", "type"]).getD ""
  let typeIssues :=
    if specType = "" then
      [⟨"error", "spec.type", "spec.type is required (should be 'Declarative' or 'BYO')"⟩]
    else []
  let declIssues :=
    if specType = "Declarative" then
      let modelConfig := (nestedString obj ["spec", "declarative", "modelConfig"]).getD ""
      let mcIssues :=
        if modelConfig = "" then
          [⟨"error", "spec.declarative.modelConfig",
            "spec.declarative.modelConfig is required for Declarative agents"⟩]
        else if ¬ getModelConfigOk c s modelConfig then
          [⟨"warning", "spec.declarative.modelConfig",
            "ModelConfig '" ++ modelConfig ++
              "' not found in namespace. Ensure it exists before applying."⟩]
        else []
      let systemMessage := (nestedString obj ["spec", "declarative", "systemMessage"]).getD ""
      let smIssues :=
        if systemMessage = "" then
          [⟨"error", "spec.declarative.systemMessage",
            "spec.declarative.systemMessage is required for Declarative agents"⟩]
        else if strict ∧ systemMessage.utf8ByteSize < 100 then
          [⟨"warning", "spec.declarative.systemMessage",
            "System message seems short. Consider providing more detailed instructions for the agent."⟩]
        else []
      mcIssues ++ smIssues
    else []
  let descIssues :=
    if strict then
      if (nestedString obj ["spec", "description"]).getD "" = "" then
        [⟨"warning", "spec.description",
          "Consider adding a description to help users understand the agent's purpose"⟩]
      else []
    else []
  typeIssues ++ declIssues ++ descIssues

/-- The fixed provider set accepted by validateModelConfig. -/
def validProvider (p : String) : Bool :=
  p == "OpenAI" || p == "AzureOpenAI" || p == "Anthropic" ||
    p == "Gemini" || p == "Ollama" || p == "Custom"

/-- tools.validateModelConfig (takes strict but never reads it, as in the
source). -/
def validateModelConfig (obj : Manifest) (_strict : Bool) : List ValidationIssue :=
  let provider := (nestedString obj ["spec", "provider"]).getD ""
  let provIssues :=
    if provider = "" then
      [⟨"error", "spec.provider", "spec.provider is required"⟩]
    else if ¬ validProvider provider then
      [⟨"error", "spec.provider",
        "Invalid provider '" ++ provider ++
          "'. Must be one of: OpenAI, AzureOpenAI, Anthropic, Gemini, Ollama, Custom"⟩]
    else []
  let modelIssues :=
    if (nestedString obj ["spec", "model"]).getD "" = "" then
      [⟨"error", "spec.model", "spec.model is required"⟩]
    else []
  let secretIssues :=
    if (nestedString obj ["spec", "apiKeySecret"]).getD "" = "" ∧ provider ≠ "Ollama" then
      [⟨"error", "spec.apiKeySecret", "spec.apiKeySecret is required for non-Ollama providers"⟩]
    else []
  provIssues ++ modelIssues ++ secretIssues

/-- tools.validateMCPServer. -/
def validateMCPServer (obj : Manifest) (_strict : Bool) : List ValidationIssue :=
  let imageIssues :=
    if (nestedString obj ["spec", "deployment", "image"]).getD "" = "" then
      [⟨"error", "spec.deployment.image", "spec.deployment.image is required for MCPServer"⟩]
    else []
  let transportType := (nestedString obj ["spec", "transportType"]).getD ""
  let ttIssues :=
    if transportType ≠ "" ∧ transportType ≠ "stdio" then
      [⟨"warning", "spec.transportType",
        "Unexpected transportType '" ++ transportType ++ "'. MCPServer typically uses 'stdio'"⟩]
    else []
  imageIssues ++ ttIssues

/-- Model of `strings.HasPrefix` (character-list form, so it evaluates in the
kernel). -/
def strStartsWith (s pre : String) : Bool := pre.data.isPrefixOf s.data

/-- tools.validateRemoteMCPServer. -/
def validateRemoteMCPServer (obj : Manifest) (_strict : Bool) : List ValidationIssue :=
  let url := (nestedString obj ["spec", "url"]).getD ""
  let urlIssues :=
    if url = "" then
      [⟨"error", "spec.url", "spec.url is required for RemoteMCPServer"⟩]
    else if ¬ strStartsWith url "http://" ∧ ¬ strStartsWith url "https://" then
      [⟨"error", "spec.url", "spec.url must start with http:// or https://"⟩]
    else []
  let protocol := (nestedString obj ["spec", "protocol"]).getD ""
  let protoIssues :=
    if protocol ≠ "" ∧ protocol ≠ "STREAMABLE_HTTP" ∧ protocol ≠ "SSE" then
      [⟨"error", "spec.protocol", "spec.protocol must be 'STREAMABLE_HTTP' or 'SSE'"⟩]
    else []
  urlIssues ++ protoIssues

/-- tools.handleValidateManifest, after the argument and YAML-parse steps
(those failures are reported as tool errors before any rule runs): the
global required-field checks followed by the kind dispatch. -/
def handleValidateManifest (c : Client) (s : Store) (obj : Manifest) (strict : Bool) :
    List ValidationIssue :=
  let apiIssues :=
    if getAPIVersion obj = "" then
      [⟨"error", "apiVersion", "apiVersion is required"⟩]
    else []
  let kindIssues :=
    if getKind obj = "" then
      [⟨"error", "kind", "kind is required"⟩]
    else []
  let nameIssues :=
    if getName obj = "" then
      [⟨"error", "metadata.name", "metadata.name is required"⟩]
    else []
  let dispatchIssues :=
    if getKind obj = "Agent" then validateAgent c s obj strict
    else if getKind obj = "ModelConfig" then validateModelConfig obj strict
    else if getKind obj = "MCPServer" then validateMCPServer obj strict
    else if getKind obj = "RemoteMCPServer" then validateRemoteMCPServer obj strict
    else
      [⟨"warning", "kind",
        "Unknown kind '" ++ getKind obj ++
          "'. Expected: Agent, ModelConfig, MCPServer, or RemoteMCPServer"⟩]
  apiIssues ++ kindIssues ++ nameIssues ++ dispatchIssues

/-- The field stripping GetCurrentState performs on the fetched copy:
`status` entirely, then the five server-managed `metadata` fields. -/
def stripServerManaged (m : Manifest) : Manifest :=
  removeMetaField
    (removeMetaField
      (removeMetaField
        (removeMetaField
          (removeMetaField (removeField m "status") "creationTimestamp")
          "generation")
        "resourceVersion")
      "uid")
    "managedFields"

/-- kubernetes.Client.GetCurrentState: resolve the GVR from the kind (the
lookup always uses the client's configured namespace), fetch, strip
server-managed fields.  The YAML marshal/unmarshal round trip the Go code
performs on the result is the identity on the tree and is elided. -/
def GetCurrentState (c : Client) (s : Store) (kind name : String) :
    Except String Manifest :=
  if ¬ gvrKnown kind then .error ("unknown kind: " ++ kind)
  else
    match s.get (kind, c.ns, name) with
    | .ok m => .ok (stripServerManaged m)
    | .notFound => .error "not found"
    | .err e => .error e

/-- Emptiness of `cmp.Diff(x, y)` on two Go maps: equality of canonical forms. -/
def cmpDiffIsEmpty (a b : Manifest) : Bool :=
  beqFields (canonFields a) (canonFields b)

/-- The three shapes of text result handleDiffManifest produces. -/
inductive DiffOutcome where
  | newResource (kind name : String)
  | noChange (kind name : String)
  | changes (kind name : String)
deriving DecidableEq, Repr

/-- tools.handleDiffManifest, after the argument and YAML-parse steps: read
(kind, name) from the manifest, fetch via GetCurrentState (any error is
reported as a new resource), drop `status` from the proposed manifest, and
compare the two trees structurally. -/
def handleDiffManifest (c : Client) (s : Store) (obj : Manifest) : DiffOutcome :=
  let name := getName obj
  let kind := getKind obj
  match GetCurrentState c s kind name with
  | .error _ => .newResource kind name
  | .ok currentObj =>
      let proposedClean := removeField obj "status"
      if cmpDiffIsEmpty currentObj proposedClean then .noChange kind name
      else .changes kind name

/-- kubernetes.ApplyResult. -/
structure ApplyResult where
  action : String
  kind : String
  name : String
  ns : String
  dryRun : Bool
deriving DecidableEq, Repr

/-- The manifest Apply submits before branching: the proposed manifest with
the client's configured namespace defaulted in when the manifest carries
none. -/
def applyObj (c : Client) (obj : Manifest) : Manifest :=
  if getNamespace obj = "" then setNamespace obj c.ns else obj

/-- The identity Apply fetches and submits under. -/
def applyIdent (c : Client) (obj : Manifest) : Ident :=
  (getKind (applyObj c obj), getNamespace (applyObj c obj), getName (applyObj c obj))

/-- kubernetes.Client.Apply, after the YAML-parse step: resolve the GVR,
default the namespace, try to Get the existing resource; on success copy
its resourceVersion onto the proposed manifest and Update (action
"updated"), on any Get error Create (action "created"); both store calls
carry the dry-run flag.  Store-side rejection of the Create/Update itself
is outside this model (the store accepts well-formed submissions). -/
def Apply (c : Client) (s : Store) (obj : Manifest) (dryRun : Bool) :
    Except String (ApplyResult × Store) :=
  if ¬ gvrKnown (getKind obj) then .error ("unknown kind: " ++ getKind obj)
  else
    let o := applyObj c obj
    let id := applyIdent c obj
    match s.get id with
    | .ok existing =>
        let o' := setResourceVersion o (getResourceVersion existing)
        .ok
          ({ action := "updated", kind := getKind o', name := getName o',
             ns := getNamespace o', dryRun := dryRun },
           s.update id o' dryRun)
    | _ =>
        .ok
          ({ action := "created", kind := getKind o, name := getName o,
             ns := getNamespace o, dryRun := dryRun },
           s.create id o dryRun)

/-! ### Concrete fixtures used by several claims -/

/-- A client configured with the default "kagent" namespace. -/
def kagentClient : Client := ⟨"kagent"⟩

/-- A store with no resources and no injected faults. -/
def emptyStore : Store := ⟨[], []⟩

/-- The end-to-end scenario manifest of spec §8.9. -/
def agentManifestX : Manifest :=
  [("apiVersion", .str "kagent.dev/v1alpha2"),
   ("kind", .str "Agent"),
   ("metadata", .obj [("name", .str "x")]),
   ("spec", .obj [("type", .str "Declarative"),
                  ("declarative", .obj [("modelConfig", .str "missing-mc"),
                                        ("systemMessage", .str "short")])])]

/-- A ModelConfig manifest whose provider is the invalid value "Bogus". -/
def mcBogusManifest : Manifest :=
  [("apiVersion", .str "kagent.dev/v1alpha2"),
   ("kind", .str "ModelConfig"),
   ("metadata", .obj [("name", .str "m")]),
   ("spec", .obj [("provider", .str "Bogus"),
                  ("model", .str "gpt-4o"),
                  ("apiKeySecret", .str "sec")])]

/-- A RemoteMCPServer manifest whose protocol is the invalid value "WS". -/
def rmcpWSManifest : Manifest :=
  [("apiVersion", .str "kagent.dev/v1alpha2"),
   ("kind", .str "RemoteMCPServer"),
   ("metadata", .obj [("name", .str "r")]),
   ("spec", .obj [("url", .str "https://example.com/mcp"),
                  ("protocol", .str "WS")])]

/-- A manifest with no kind attribute at all. -/
def noKindManifest : Manifest :=
  [("apiVersion", .str "v1"),
   ("metadata", .obj [("name", .str "x")])]

/-- A cluster-side Agent as fetched from the store, carrying a
server-managed resourceVersion. -/
def curAgentManifest : Manifest :=
  [("apiVersion", .str "kagent.dev/v1alpha2"),
   ("kind", .str "Agent"),
   ("metadata", .obj [("name", .str "a"), ("namespace", .str "kagent"),
                      ("resourceVersion", .str "6")]),
   ("spec", .obj [("type", .str "BYO")])]

/-- The same Agent as proposed, identical except that it carries the stale
concurrency token "5" in `metadata.resourceVersion`. -/
def propAgentRvManifest : Manifest :=
  [("apiVersion", .str "kagent.dev/v1alpha2"),
   ("kind", .str "Agent"),
   ("metadata", .obj [("name", .str "a"), ("namespace", .str "kagent"),
                      ("resourceVersion", .str "5")]),
   ("spec", .obj [("type", .str "BYO")])]

/-- The same Agent as proposed without server-managed metadata fields but
with a `status` subtree: it differs from the stored copy only in `status`
and `metadata.resourceVersion`-absence. -/
def propAgentStatusManifest : Manifest :=
  [("apiVersion", .str "kagent.dev/v1alpha2"),
   ("kind", .str "Agent"),
   ("metadata", .obj [("name", .str "a"), ("namespace", .str "kagent")]),
   ("spec", .obj [("type", .str "BYO")]),
   ("status", .obj [("ready", .jbool true)])]

/-- A store holding the Agent "a" in namespace "kagent". -/
def agentStore : Store := ⟨[(("Agent", "kagent", "a"), curAgentManifest)], []⟩

/-- A store whose Get on Agent "a" in namespace "kagent" fails with a
transient (non-not-found) store error. -/
def faultyStore : Store := ⟨[], [(("Agent", "kagent", "a"), "transient store error")]⟩

/-- An Agent manifest that carries its own namespace "other", different
from the client's configured one. -/
def nsOtherAgentManifest : Manifest :=
  [("apiVersion", .str "kagent.dev/v1alpha2"),
   ("kind", .str "Agent"),
   ("metadata", .obj [("name", .str "a"), ("namespace", .str "other")]),
   ("spec", .obj [("type", .str "BYO")])]

/-- A store holding that Agent under the identity its manifest names:
("Agent", "other", "a"). -/
def otherNsStore : Store := ⟨[(("Agent", "other", "a"), nsOtherAgentManifest)], []⟩

/-! ### Claim theorems -/

/-- C4: validating the manifest {apiVersion: kagent.dev/v1alpha2, kind:
Agent, metadata:{name: "x"}, spec:{type: "Declarative",
declarative:{modelConfig: "missing-mc", systemMessage: "short"}}} with
strict=true against a store where the ModelConfig lookup for "missing-mc"
fails yields exactly three warnings — on spec.declarative.modelConfig (not
found), spec.declarative.systemMessage (too short) and spec.description
(missing) — and zero errors. -/
theorem c4_agent_scenario_three_warnings :
    handleValidateManifest kagentClient emptyStore agentManifestX true =
      [⟨"warning", "spec.declarative.modelConfig",
        "ModelConfig 'missing-mc' not found in namespace. Ensure it exists before applying."⟩,
       ⟨"warning", "spec.declarative.systemMessage",
        "System message seems short. Consider providing more detailed instructions for the agent."⟩,
       ⟨"warning", "spec.description",
        "Consider adding a description to help users understand the agent's purpose"⟩] ∧
    (handleValidateManifest kagentClient emptyStore agentManifestX true).countP
      (fun i => i.severity == "warning") = 3 ∧
    (handleValidateManifest kagentClient emptyStore agentManifestX true).countP
      (fun i => i.severity == "error") = 0 := by
  refine ⟨by decide, by decide, by decide⟩

/-- C6: a ModelConfig manifest with spec.provider = "Bogus" (model and
apiKeySecret present) yields exactly one error-severity issue, on
spec.provider; a RemoteMCPServer manifest with spec.protocol = "WS" (url
present and well-formed) yields exactly one error-severity issue, on
spec.protocol. -/
theorem c6_enum_rejection_single_error :
    (handleValidateManifest kagentClient emptyStore mcBogusManifest true).filter
        (fun i => i.severity == "error") =
      [⟨"error", "spec.provider",
        "Invalid provider 'Bogus'. Must be one of: OpenAI, AzureOpenAI, Anthropic, Gemini, Ollama, Custom"⟩] ∧
    (handleValidateManifest kagentClient emptyStore rmcpWSManifest true).filter
        (fun i => i.severity == "error") =
      [⟨"error", "spec.protocol", "spec.protocol must be 'STREAMABLE_HTTP' or 'SSE'"⟩] := by
  refine ⟨by decide, by decide⟩

/-- C10: a manifest whose kind is absent or empty collects both the
error-severity "kind is required" issue and the warning-severity
unknown-kind issue (the empty kind also falls through to the
unrecognized-kind dispatch branch): two issues on field "kind". -/
theorem c10_empty_kind_two_issues (c : Client) (s : Store) (obj : Manifest) (strict : Bool)
    (h : getKind obj = "") :
    ValidationIssue.mk "error" "kind" "kind is required" ∈ handleValidateManifest c s obj strict ∧
    ValidationIssue.mk "warning" "kind"
        "Unknown kind ''. Expected: Agent, ModelConfig, MCPServer, or RemoteMCPServer" ∈
      handleValidateManifest c s obj strict ∧
    (handleValidateManifest c s obj strict).countP (fun i => i.field == "kind") = 2 := by
  simp only [handleValidateManifest, h]
  by_cases ha : getAPIVersion obj = "" <;> by_cases hn : getName obj = "" <;>
    simp [ha, hn, List.countP_append, List.countP_cons]

/-- Witness for C10 at the concrete kindless manifest. -/
theorem c10_empty_kind_two_issues_witness :
    getKind noKindManifest = "" ∧
    (ValidationIssue.mk "error" "kind" "kind is required" ∈
        handleValidateManifest kagentClient emptyStore noKindManifest true ∧
      ValidationIssue.mk "warning" "kind"
          "Unknown kind ''. Expected: Agent, ModelConfig, MCPServer, or RemoteMCPServer" ∈
        handleValidateManifest kagentClient emptyStore noKindManifest true ∧
      (handleValidateManifest kagentClient emptyStore noKindManifest true).countP
        (fun i => i.field == "kind") = 2) :=
  ⟨by decide, c10_empty_kind_two_issues kagentClient emptyStore noKindManifest true (by decide)⟩

/-- C1 is false as stated: the server-managed metadata fields are stripped
from the fetched copy only, not from the proposed manifest.  Here the
proposed manifest and the stored state are identical except for
`metadata.resourceVersion` (equal once that field is removed from both),
yet Diff reports changes rather than the no-change result. -/
theorem c1_counterexample_rv_not_stripped_from_proposed :
    removeMetaField propAgentRvManifest "resourceVersion" =
      removeMetaField curAgentManifest "resourceVersion" ∧
    handleDiffManifest kagentClient agentStore propAgentRvManifest =
      DiffOutcome.changes "Agent" "a" :=
  ⟨rfl, by decide⟩

/-- C1 (amended): Diff strips `status` and the server-managed metadata
fields from the fetched copy but only `status` from the proposed manifest;
it reports no-change exactly when the stripped fetched copy equals the
proposed manifest minus `status`.  In particular a manifest differing from
store state only in `status` (and not itself carrying server-managed
metadata fields) produces the no-change result. -/
theorem c1_amended_noChange_of_stripped_eq (c : Client) (s : Store) (obj cur : Manifest)
    (hk : gvrKnown (getKind obj) = true)
    (hget : s.get (getKind obj, c.ns, getName obj) = GetResult.ok cur)
    (heq : canonFields (stripServerManaged cur) = canonFields (removeField obj "status")) :
    handleDiffManifest c s obj = DiffOutcome.noChange (getKind obj) (getName obj) := by
  simp only [handleDiffManifest, GetCurrentState, hk, hget, cmpDiffIsEmpty, heq,
    beqFields_refl, not_true, if_false, if_true, Bool.not_true, ite_false, ite_true]

/-- Witness for the amended C1: a proposed manifest that differs from the
stored Agent only in its `status` subtree (and in not carrying the
server-managed `metadata.resourceVersion`) diffs to no-change. -/
theorem c1_amended_noChange_of_stripped_eq_witness :
    gvrKnown (getKind propAgentStatusManifest) = true ∧
    agentStore.get (getKind propAgentStatusManifest, kagentClient.ns,
        getName propAgentStatusManifest) = GetResult.ok curAgentManifest ∧
    canonFields (stripServerManaged curAgentManifest) =
      canonFields (removeField propAgentStatusManifest "status") ∧
    handleDiffManifest kagentClient agentStore propAgentStatusManifest =
      DiffOutcome.noChange (getKind propAgentStatusManifest)
        (getName propAgentStatusManifest) :=
  ⟨by decide, by rfl, by rfl,
    c1_amended_noChange_of_stripped_eq kagentClient agentStore propAgentStatusManifest
      curAgentManifest (by decide) (by rfl) (by rfl)⟩

/-- C3 is false as stated: Diff resolves only (kind, name) from the
manifest; the fetch always uses the client's configured namespace.  Here
the store holds the resource under the manifest's own namespace "other",
but Diff (configured namespace "kagent") still reports a new resource. -/
theorem c3_counterexample_manifest_namespace_ignored :
    getNamespace nsOtherAgentManifest = "other" ∧
    lookupIdent otherNsStore.data ("Agent", "other", "a") = some nsOtherAgentManifest ∧
    handleDiffManifest kagentClient otherNsStore nsOtherAgentManifest =
      DiffOutcome.newResource "Agent" "a" :=
  ⟨by rfl, by rfl, by decide⟩

/-- C3 (amended): Diff resolves (kind, name) from the manifest and fetches
under the client's configured namespace, ignoring any namespace the
manifest carries: its result depends on the store only through the entry
at (kind, configured-namespace, name). -/
theorem c3_amended_fetch_under_client_namespace (c : Client) (s₁ s₂ : Store) (obj : Manifest)
    (h : s₁.get (getKind obj, c.ns, getName obj) = s₂.get (getKind obj, c.ns, getName obj)) :
    handleDiffManifest c s₁ obj = handleDiffManifest c s₂ obj := by
  simp only [handleDiffManifest, GetCurrentState, h]

/-- Witness for the amended C3: two stores that differ in the manifest's
own namespace "other" but agree under the configured namespace "kagent"
give the same Diff result. -/
theorem c3_amended_fetch_under_client_namespace_witness :
    otherNsStore.get ("Agent", kagentClient.ns, "a") =
      emptyStore.get ("Agent", kagentClient.ns, "a") ∧
    handleDiffManifest kagentClient otherNsStore nsOtherAgentManifest =
      handleDiffManifest kagentClient emptyStore nsOtherAgentManifest :=
  ⟨by rfl,
    c3_amended_fetch_under_client_namespace kagentClient otherNsStore emptyStore
      nsOtherAgentManifest (by rfl)⟩

/-- C9: whenever the GetCurrentState fetch fails — an unknown kind, the
resource being absent, or a transient store error alike — Diff reports the
"new resource" result; the fetch error is never surfaced to the caller. -/
theorem c9_any_fetch_error_reports_new (c : Client) (s : Store) (obj : Manifest) (e : String)
    (h : GetCurrentState c s (getKind obj) (getName obj) = Except.error e) :
    handleDiffManifest c s obj = DiffOutcome.newResource (getKind obj) (getName obj) := by
  simp only [handleDiffManifest, h]

/-- Witness for C9: a transient (non-not-found) store fault on the fetched
identity still yields the "new resource" report. -/
theorem c9_any_fetch_error_reports_new_witness :
    GetCurrentState kagentClient faultyStore (getKind propAgentStatusManifest)
        (getName propAgentStatusManifest) = Except.error "transient store error" ∧
    handleDiffManifest kagentClient faultyStore propAgentStatusManifest =
      DiffOutcome.newResource (getKind propAgentStatusManifest)
        (getName propAgentStatusManifest) :=
  ⟨by rfl,
    c9_any_fetch_error_reports_new kagentClient faultyStore propAgentStatusManifest
      "transient store error" (by rfl)⟩

/-- A successful store Get means the identity is in the resource list (and
carries no injected fault). -/
theorem store_get_ok {s : Store} {id : Ident} {m : Manifest}
    (h : s.get id = GetResult.ok m) : lookupIdent s.data id = some m := by
  unfold Store.get at h
  cases hf : lookupFault s.faults id with
  | some e => rw [hf] at h; cases h
  | none =>
      rw [hf] at h
      cases hd : lookupIdent s.data id with
      | some m' => rw [hd] at h; cases h; rfl
      | none => rw [hd] at h; cases h

/-- After replacing the entry at an identity that is present, looking the
identity up yields the replacement. -/
theorem lookupIdent_update_self :
    ∀ (l : List (Ident × Manifest)) (id : Ident) (m x : Manifest),
      lookupIdent l id = some x →
      lookupIdent (l.map (fun p => if p.1 = id then (id, m) else p)) id = some m
  | [], id, m, x, h => by simp [lookupIdent] at h
  | (i, y) :: rest, id, m, x, h => by
      by_cases hi : i = id
      · subst hi
        show lookupIdent
            ((if i = i then (i, m) else (i, y)) ::
              rest.map (fun p => if p.1 = i then (i, m) else p)) i = some m
        rw [if_pos rfl]
        simp [lookupIdent]
      · show lookupIdent
            ((if i = id then (id, m) else (i, y)) ::
              rest.map (fun p => if p.1 = id then (id, m) else p)) id = some m
        rw [if_neg hi]
        simp only [lookupIdent, if_neg hi] at h ⊢
        exact lookupIdent_update_self rest id m x h

/-- C2: Apply on an identity absent from the store submits a Create of the
namespace-defaulted manifest and reports action "created"; Apply on an
identity present in the store reports action "updated" and the manifest it
submitted (now stored) is the proposed one with the fetched concurrency
token copied onto it. -/
theorem c2_create_vs_update (c : Client) (s : Store) (obj : Manifest)
    (hk : gvrKnown (getKind obj) = true) :
    (s.get (applyIdent c obj) = GetResult.notFound →
      Apply c s obj false =
        Except.ok
          ({ action := "created", kind := getKind (applyObj c obj),
             name := getName (applyObj c obj), ns := getNamespace (applyObj c obj),
             dryRun := false },
           s.create (applyIdent c obj) (applyObj c obj) false)) ∧
    (∀ existing, s.get (applyIdent c obj) = GetResult.ok existing →
      ∃ res s', Apply c s obj false = Except.ok (res, s') ∧ res.action = "updated" ∧
        lookupIdent s'.data (applyIdent c obj) =
          some (setResourceVersion (applyObj c obj) (getResourceVersion existing))) := by
  constructor
  · intro h
    simp only [Apply, hk, not_true, ite_false, if_false, Bool.not_true, h]
  · intro existing h
    have happ : Apply c s obj false =
        Except.ok
          ({ action := "updated",
             kind := getKind (setResourceVersion (applyObj c obj) (getResourceVersion existing)),
             name := getName (setResourceVersion (applyObj c obj) (getResourceVersion existing)),
             ns := getNamespace (setResourceVersion (applyObj c obj) (getResourceVersion existing)),
             dryRun := false },
           s.update (applyIdent c obj)
             (setResourceVersion (applyObj c obj) (getResourceVersion existing)) false) := by
      simp only [Apply, hk, not_true, ite_false, if_false, Bool.not_true, h]
    exact ⟨_, _, happ, rfl,
      lookupIdent_update_self s.data (applyIdent c obj) _ existing (store_get_ok h)⟩

/-- Witness for C2: against an empty store the Agent manifest is created;
against a store holding it, it is updated and the stored copy carries the
fetched resourceVersion "6". -/
theorem c2_create_vs_update_witness :
    gvrKnown (getKind propAgentStatusManifest) = true ∧
    emptyStore.get (applyIdent kagentClient propAgentStatusManifest) = GetResult.notFound ∧
    Apply kagentClient emptyStore propAgentStatusManifest false =
      Except.ok
        ({ action := "created",
           kind := getKind (applyObj kagentClient propAgentStatusManifest),
           name := getName (applyObj kagentClient propAgentStatusManifest),
           ns := getNamespace (applyObj kagentClient propAgentStatusManifest),
           dryRun := false },
         emptyStore.create (applyIdent kagentClient propAgentStatusManifest)
           (applyObj kagentClient propAgentStatusManifest) false) ∧
    agentStore.get (applyIdent kagentClient propAgentStatusManifest) =
      GetResult.ok curAgentManifest ∧
    (∃ res s',
      Apply kagentClient agentStore propAgentStatusManifest false = Except.ok (res, s') ∧
      res.action = "updated" ∧
      lookupIdent s'.data (applyIdent kagentClient propAgentStatusManifest) =
        some (setResourceVersion (applyObj kagentClient propAgentStatusManifest)
          (getResourceVersion curAgentManifest))) :=
  ⟨by decide, by rfl,
    (c2_create_vs_update kagentClient emptyStore propAgentStatusManifest (by decide)).1 (by rfl),
    by rfl,
    (c2_create_vs_update kagentClient agentStore propAgentStatusManifest (by decide)).2
      curAgentManifest (by rfl)⟩

/-- C7: a successful dry-run Apply leaves the store exactly as it was,
reports dryRun=true, and reports the same action (created or updated) as
the non-dry-run Apply on the same manifest and store would. -/
theorem c7_dry_run_purity (c : Client) (s : Store) (obj : Manifest) (res : ApplyResult)
    (s' : Store) (h : Apply c s obj true = Except.ok (res, s')) :
    s' = s ∧ res.dryRun = true ∧
    ∃ res2 s2, Apply c s obj false = Except.ok (res2, s2) ∧ res2.action = res.action := by
  by_cases hk : gvrKnown (getKind obj) = true
  · simp only [Apply, hk, not_true, ite_false, if_false, Bool.not_true] at h ⊢
    cases hg : Store.get s (applyIdent c obj) with
    | ok existing =>
        rw [hg] at h
        simp only [Except.ok.injEq, Prod.mk.injEq] at h
        obtain ⟨hres, hs⟩ := h
        subst hres
        subst hs
        refine ⟨rfl, rfl, ?_⟩
        exact ⟨_, _, rfl, rfl⟩
    | notFound =>
        rw [hg] at h
        simp only [Except.ok.injEq, Prod.mk.injEq] at h
        obtain ⟨hres, hs⟩ := h
        subst hres
        subst hs
        refine ⟨rfl, rfl, ?_⟩
        exact ⟨_, _, rfl, rfl⟩
    | err e =>
        rw [hg] at h
        simp only [Except.ok.injEq, Prod.mk.injEq] at h
        obtain ⟨hres, hs⟩ := h
        subst hres
        subst hs
        refine ⟨rfl, rfl, ?_⟩
        exact ⟨_, _, rfl, rfl⟩
  · simp [Apply, hk] at h

/-- Witness for C7 at the stored Agent: the dry-run Apply returns the
"updated" outcome with the store untouched, matching the non-dry-run
action. -/
theorem c7_dry_run_purity_witness :
    ∃ res2 s2,
      Apply kagentClient agentStore propAgentStatusManifest false = Except.ok (res2, s2) ∧
        res2.action = "updated" := by
  have h := c7_dry_run_purity kagentClient agentStore propAgentStatusManifest
    { action := "updated", kind := "Agent", name := "a", ns := "kagent", dryRun := true }
    agentStore (by rfl)
  obtain ⟨-, -, res2, s2, happ, hact⟩ := h
  exact ⟨res2, s2, happ, hact.trans rfl⟩

/-- C8: any error from the initial fetch — not only not-found — routes
Apply to the create branch: it does not fail on the fetch error, skips the
concurrency-token step, submits a Create of the namespace-defaulted
manifest as-is, and reports action "created". -/
theorem c8_fetch_error_routes_to_create (c : Client) (s : Store) (obj : Manifest)
    (dryRun : Bool) (e : String) (hk : gvrKnown (getKind obj) = true)
    (h : s.get (applyIdent c obj) = GetResult.err e) :
    Apply c s obj dryRun =
      Except.ok
        ({ action := "created", kind := getKind (applyObj c obj),
           name := getName (applyObj c obj), ns := getNamespace (applyObj c obj),
           dryRun := dryRun },
         s.create (applyIdent c obj) (applyObj c obj) dryRun) := by
  simp only [Apply, hk, not_true, ite_false, if_false, Bool.not_true, h]

/-- Witness for C8: a transient Get fault on the stored identity still
produces a successful "created" outcome. -/
theorem c8_fetch_error_routes_to_create_witness :
    faultyStore.get (applyIdent kagentClient propAgentStatusManifest) =
      GetResult.err "transient store error" ∧
    Apply kagentClient faultyStore propAgentStatusManifest false =
      Except.ok
        ({ action := "created",
           kind := getKind (applyObj kagentClient propAgentStatusManifest),
           name := getName (applyObj kagentClient propAgentStatusManifest),
           ns := getNamespace (applyObj kagentClient propAgentStatusManifest),
           dryRun := false },
         faultyStore.create (applyIdent kagentClient propAgentStatusManifest)
           (applyObj kagentClient propAgentStatusManifest) false) :=
  ⟨by rfl,
    c8_fetch_error_routes_to_create kagentClient faultyStore propAgentStatusManifest false
      "transient store error" (by decide) (by rfl)⟩

/-- Dropping the strict flag removes issues from validateAgent's output
without reordering: the non-strict list is a sublist of the strict one. -/
theorem validateAgent_sublist (c : Client) (s : Store) (obj : Manifest) :
    List.Sublist (validateAgent c s obj false) (validateAgent c s obj true) := by
  simp only [validateAgent, Bool.false_eq_true, false_and, if_false, ite_false, true_and,
    eq_self_iff_true, if_true, ite_true]
  refine List.Sublist.append (List.Sublist.append (List.Sublist.refl _) ?_) (List.nil_sublist _)
  by_cases hd : (nestedString obj ["spec", "type"]).getD "" = "Declarative"
  · simp only [if_pos hd]
    refine List.Sublist.append (List.Sublist.refl _) ?_
    by_cases hs : (nestedString obj ["spec", "declarative", "systemMessage"]).getD "" = ""
    · simp only [if_pos hs]
      exact List.Sublist.refl _
    · simp only [if_neg hs]
      exact List.nil_sublist _
  · simp only [if_neg hd]
    exact List.Sublist.refl _

/-- Every issue validateAgent emits at strict=true is either also emitted
at strict=false or is a warning (the strict-gated ones). -/
theorem validateAgent_strict_mem (c : Client) (s : Store) (obj : Manifest) :
    ∀ i ∈ validateAgent c s obj true,
      i ∈ validateAgent c s obj false ∨ i.severity = "warning" := by
  intro i hi
  simp only [validateAgent, Bool.false_eq_true, false_and, if_false, ite_false, true_and,
    eq_self_iff_true, if_true, ite_true] at hi ⊢
  rcases List.mem_append.1 hi with hrest | hdesc
  · rcases List.mem_append.1 hrest with htype | hdecl
    · exact Or.inl (List.mem_append_left _ (List.mem_append_left _ htype))
    · by_cases hd : (nestedString obj ["spec", "type"]).getD "" = "Declarative"
      · rw [if_pos hd] at hdecl
        rcases List.mem_append.1 hdecl with hmc | hsm
        · refine Or.inl (List.mem_append_left _ (List.mem_append_right _ ?_))
          rw [if_pos hd]
          exact List.mem_append_left _ hmc
        · by_cases hs : (nestedString obj ["spec", "declarative", "systemMessage"]).getD "" = ""
          · rw [if_pos hs] at hsm
            refine Or.inl (List.mem_append_left _ (List.mem_append_right _ ?_))
            rw [if_pos hd]
            refine List.mem_append_right _ ?_
            rw [if_pos hs]
            exact hsm
          · rw [if_neg hs] at hsm
            by_cases hlen :
                ((nestedString obj ["spec", "declarative", "systemMessage"]).getD
                  "").utf8ByteSize < 100
            · rw [if_pos hlen] at hsm
              rcases List.mem_singleton.1 hsm with rfl
              exact Or.inr rfl
            · rw [if_neg hlen] at hsm
              cases hsm
      · rw [if_neg hd] at hdecl
        cases hdecl
  · by_cases hdesc0 : (nestedString obj ["spec", "description"]).getD "" = ""
    · rw [if_pos hdesc0] at hdesc
      rcases List.mem_singleton.1 hdesc with rfl
      exact Or.inr rfl
    · rw [if_neg hdesc0] at hdesc
      cases hdesc

/-- validateModelConfig never reads the strict flag. -/
theorem validateModelConfig_strict_irrel (obj : Manifest) :
    validateModelConfig obj false = validateModelConfig obj true := rfl

/-- validateMCPServer never reads the strict flag. -/
theorem validateMCPServer_strict_irrel (obj : Manifest) :
    validateMCPServer obj false = validateMCPServer obj true := rfl

/-- validateRemoteMCPServer never reads the strict flag. -/
theorem validateRemoteMCPServer_strict_irrel (obj : Manifest) :
    validateRemoteMCPServer obj false = validateRemoteMCPServer obj true := rfl

/-- Combining the strict-independent global checks with a dispatch result:
if the non-strict dispatch list is a sublist of the strict one and every
extra strict issue is a warning, the same holds of the full issue lists. -/
theorem strict_issue_lists (A K N Df Dt : List ValidationIssue)
    (hsub : Df.Sublist Dt)
    (hmem : ∀ i ∈ Dt, i ∈ Df ∨ i.severity = "warning") :
    (A ++ K ++ N ++ Df).Sublist (A ++ K ++ N ++ Dt) ∧
    (∀ i ∈ A ++ K ++ N ++ Dt, i.severity = "error" → i ∈ A ++ K ++ N ++ Df) ∧
    (∀ i ∈ A ++ K ++ N ++ Dt, i ∉ A ++ K ++ N ++ Df → i.severity = "warning") := by
  refine ⟨hsub.append_left (A ++ K ++ N), ?_, ?_⟩
  · intro i hi herr
    simp only [List.mem_append] at hi ⊢
    rcases hi with ((h1 | h2) | h3) | hD
    · exact Or.inl (Or.inl (Or.inl h1))
    · exact Or.inl (Or.inl (Or.inr h2))
    · exact Or.inl (Or.inr h3)
    · rcases hmem i hD with hf | hw
      · exact Or.inr hf
      · exact absurd (herr.symm.trans hw) (by decide)
  · intro i hi hni
    simp only [List.mem_append] at hi hni
    rcases hi with ((h1 | h2) | h3) | hD
    · exact absurd (Or.inl (Or.inl (Or.inl h1))) hni
    · exact absurd (Or.inl (Or.inl (Or.inr h2))) hni
    · exact absurd (Or.inl (Or.inr h3)) hni
    · rcases hmem i hD with hf | hw
      · exact absurd (Or.inr hf) hni
      · exact hw

/-- C5: the issue list at strict=false is a sublist of the one at
strict=true on the same manifest and store; every error-severity issue of
the strict list survives in the non-strict list; and every issue that
disappears when strict is dropped is a warning. -/
theorem c5_strict_monotonicity (c : Client) (s : Store) (obj : Manifest) :
    List.Sublist (handleValidateManifest c s obj false) (handleValidateManifest c s obj true) ∧
    (∀ i ∈ handleValidateManifest c s obj true, i.severity = "error" →
      i ∈ handleValidateManifest c s obj false) ∧
    (∀ i ∈ handleValidateManifest c s obj true, i ∉ handleValidateManifest c s obj false →
      i.severity = "warning") := by
  by_cases hA : getKind obj = "Agent"
  · simp only [handleValidateManifest, hA]
    simp only [show ¬ (("Agent" : String) = "") from by decide, if_false, ite_false,
      if_pos rfl, ite_true, if_true]
    exact strict_issue_lists _ _ _ _ _ (validateAgent_sublist c s obj)
      (validateAgent_strict_mem c s obj)
  by_cases hMC : getKind obj = "ModelConfig"
  · simp only [handleValidateManifest, hMC]
    simp only [show ¬ (("ModelConfig" : String) = "") from by decide,
      show ¬ (("ModelConfig" : String) = "Agent") from by decide, if_false, ite_false,
      if_pos rfl, ite_true, if_true]
    rw [validateModelConfig_strict_irrel]
    exact strict_issue_lists _ _ _ _ _ (List.Sublist.refl _) (fun i hi => Or.inl hi)
  by_cases hM : getKind obj = "MCPServer"
  · simp only [handleValidateManifest, hM]
    simp only [show ¬ (("MCPServer" : String) = "") from by decide,
      show ¬ (("MCPServer" : String) = "Agent") from by decide,
      show ¬ (("MCPServer" : String) = "ModelConfig") from by decide, if_false, ite_false,
      if_pos rfl, ite_true, if_true]
    rw [validateMCPServer_strict_irrel]
    exact strict_issue_lists _ _ _ _ _ (List.Sublist.refl _) (fun i hi => Or.inl hi)
  by_cases hR : getKind obj = "RemoteMCPServer"
  · simp only [handleValidateManifest, hR]
    simp only [show ¬ (("RemoteMCPServer" : String) = "") from by decide,
      show ¬ (("RemoteMCPServer" : String) = "Agent") from by decide,
      show ¬ (("RemoteMCPServer" : String) = "ModelConfig") from by decide,
      show ¬ (("RemoteMCPServer" : String) = "MCPServer") from by decide, if_false, ite_false,
      if_pos rfl, ite_true, if_true]
    rw [validateRemoteMCPServer_strict_irrel]
    exact strict_issue_lists _ _ _ _ _ (List.Sublist.refl _) (fun i hi => Or.inl hi)
  · simp only [handleValidateManifest, if_neg hA, if_neg hMC, if_neg hM, if_neg hR]
    exact strict_issue_lists _ _ _ _ _ (List.Sublist.refl _) (fun i hi => Or.inl hi)

/-- Witness for C5: at the Agent scenario manifest the non-strict issue
list is a sublist of the strict one; a concrete error (bad ModelConfig
provider) present at strict=true is still present at strict=false; and a
concrete issue present only at strict=true (the missing-description one)
is a warning. -/
theorem c5_strict_monotonicity_witness :
    List.Sublist (handleValidateManifest kagentClient emptyStore agentManifestX false)
      (handleValidateManifest kagentClient emptyStore agentManifestX true) ∧
    ValidationIssue.mk "error" "spec.provider"
        "Invalid provider 'Bogus'. Must be one of: OpenAI, AzureOpenAI, Anthropic, Gemini, Ollama, Custom" ∈
      handleValidateManifest kagentClient emptyStore mcBogusManifest false ∧
    (ValidationIssue.mk "warning" "spec.description"
        "Consider adding a description to help users understand the agent's purpose").severity =
      "warning" :=
  ⟨(c5_strict_monotonicity kagentClient emptyStore agentManifestX).1,
   (c5_strict_monotonicity kagentClient emptyStore mcBogusManifest).2.1
     (ValidationIssue.mk "error" "spec.provider"
       "Invalid provider 'Bogus'. Must be one of: OpenAI, AzureOpenAI, Anthropic, Gemini, Ollama, Custom")
     (by decide) (by decide),
   (c5_strict_monotonicity kagentClient emptyStore agentManifestX).2.2
     (ValidationIssue.mk "warning" "spec.description"
       "Consider adding a description to help users understand the agent's purpose")
     (by decide) (by decide)⟩
